import Mathlib

/-!
Shallow embedding of the site-coordinate validation and correction pipeline
of `src/app.py` (module top level, the `sites` loading block):

* reference joins of raw site rows with the mineral and country tables
  (pandas left merges on an indexed reference frame),
* the hard-coded country centroid table,
* the per-record coordinate validator / correction applier loop,
* the ordered correction-event log.

Python floats are modelled as exact rationals; a raw coordinate cell is
either a numeric value, a non-numeric value (on which `float` raises), or
an absent dictionary key (for which `s.get('Latitude', 0)` yields `0`).
-/

namespace MinnApp

/-- A raw coordinate cell of a site dictionary: `missing` models an absent
key (`s.get(key, 0)` returns the default `0`), `num q` a numeric value, and
`bad` a value on which `float(...)` raises. -/
inductive RawVal where
  | missing : RawVal
  | num : ℚ → RawVal
  | bad : RawVal
deriving DecidableEq

/-- `float(s.get(key, 0))` from `src/app.py` lines 109-110: an absent key
defaults to `0`, a numeric cell parses to its value, a non-numeric cell
raises (modelled as `none`). -/
def parseCoord : RawVal → Option ℚ
  | RawVal.missing => some 0
  | RawVal.num q => some q
  | RawVal.bad => none

/-- A site record as produced by the merges of `src/app.py` lines 90-96:
the raw row fields plus the (possibly absent) resolved names, plus the
mutable `Note` field attached by the correction loop (absent initially). -/
structure SiteRecord where
  siteID : Option String
  siteName : Option String
  mineralID : ℤ
  countryID : ℤ
  mineralName : Option String
  countryName : Option String
  latitude : RawVal
  longitude : RawVal
  production : Option ℚ
  note : Option String
deriving DecidableEq

/-- The hard-coded centroid table of `src/app.py` lines 99-104. -/
def country_centroids : String → Option (ℚ × ℚ) := fun cname =>
  if cname = "DRC (Congo)" then some (-4.038333, 21.758664)
  else if cname = "South Africa" then some (-30.559482, 22.937506)
  else if cname = "Mozambique" then some (-18.665695, 35.529562)
  else if cname = "Namibia" then some (-22.9576, 18.4904)
  else none

/-- `cname = s.get('CountryName')` followed by `cname in country_centroids`
(`src/app.py` lines 114-116). -/
def centroidFor (s : SiteRecord) : Option (ℚ × ℚ) :=
  match s.countryName with
  | some cname => country_centroids cname
  | none => none

/-- The `action` field of a correction dictionary (`src/app.py` lines 129
and 136). -/
inductive Action where
  | swap_latlon : Action
  | mismatch : Action
deriving DecidableEq

/-- A correction dictionary appended to `corrections` (`src/app.py` lines
128-129 and 135-136): swap entries carry `new`, mismatch entries carry
`country_centroid`. -/
structure CorrectionEvent where
  siteID : Option String
  siteName : Option String
  countryName : Option String
  action : Action
  old : ℚ × ℚ
  new : Option (ℚ × ℚ)
  country_centroid : Option (ℚ × ℚ)
deriving DecidableEq

/-- The provenance note set on a swapped record (`src/app.py` line 132). -/
def swapNote : String := "Swapped lat/lon due to large mismatch with country centroid."

/-- The provenance note set on an unresolved-mismatch record
(`src/app.py` line 137). -/
def mismatchNote : String := "Coordinate far from assigned country centroid; left unchanged for manual review."

/-- One iteration of the correction loop body (`src/app.py` lines 107-140):
parse the coordinates (skipping the record on a parse failure), look up the
country centroid, and on a large discrepancy either swap latitude/longitude
(when the transposed pair is strictly closer to the centroid in Manhattan
distance) or flag a mismatch; either way set the note and emit one event. -/
def correctSite (s : SiteRecord) : SiteRecord × List CorrectionEvent :=
  match parseCoord s.latitude, parseCoord s.longitude with
  | some lat, some lon =>
    match centroidFor s with
    | some (c_lat, c_lon) =>
      if |lat - c_lat| > 10 ∨ |lon - c_lon| > 20 then
        let swapped_lat := lon
        let swapped_lon := lat
        let dist_orig := |lat - c_lat| + |lon - c_lon|
        let dist_swapped := |swapped_lat - c_lat| + |swapped_lon - c_lon|
        if dist_swapped < dist_orig then
          ({ s with latitude := RawVal.num swapped_lat,
                    longitude := RawVal.num swapped_lon,
                    note := some swapNote },
           [{ siteID := s.siteID, siteName := s.siteName, countryName := s.countryName,
              action := Action.swap_latlon, old := (lat, lon),
              new := some (swapped_lat, swapped_lon), country_centroid := none }])
        else
          ({ s with note := some mismatchNote },
           [{ siteID := s.siteID, siteName := s.siteName, countryName := s.countryName,
              action := Action.mismatch, old := (lat, lon),
              new := none, country_centroid := some (c_lat, c_lon) }])
      else (s, [])
    | none => (s, [])
  | _, _ => (s, [])

/-- The whole correction loop (`src/app.py` lines 105-141): the corrected
record list in input order together with the ordered event log. -/
def correctionLoop : List SiteRecord → List SiteRecord × List CorrectionEvent
  | [] => ([], [])
  | s :: rest =>
    let r := correctSite s
    let t := correctionLoop rest
    (r.1 :: t.1, r.2 ++ t.2)

/-- All names a reference table associates to an identifier, in table
order (the rows a pandas left merge on an indexed reference matches). -/
def refMatches (ref : List (ℤ × String)) (id : ℤ) : List String :=
  (ref.filter fun p => p.1 = id).map Prod.snd

/-- `sites_df.merge(minerals_indexed[['MineralName']], left_on='MineralID',
right_index=True, how='left')` (`src/app.py` line 94): each row is emitted
once per matching reference entry, or once with an absent name when no
entry matches. -/
def mergeMinerals (ref : List (ℤ × String)) (rows : List SiteRecord) : List SiteRecord :=
  rows.flatMap fun r =>
    match refMatches ref r.mineralID with
    | [] => [{ r with mineralName := none }]
    | ms => ms.map fun m => { r with mineralName := some m }

/-- The analogous country merge (`src/app.py` line 95). -/
def mergeCountries (ref : List (ℤ × String)) (rows : List SiteRecord) : List SiteRecord :=
  rows.flatMap fun r =>
    match refMatches ref r.countryID with
    | [] => [{ r with countryName := none }]
    | ms => ms.map fun m => { r with countryName := some m }

/-- The pipeline on site rows (`src/app.py` lines 90-141): join minerals,
join countries, then run the correction loop. -/
def pipeline (mineralsRef countriesRef : List (ℤ × String)) (rows : List SiteRecord) :
    List SiteRecord × List CorrectionEvent :=
  correctionLoop (mergeCountries countriesRef (mergeMinerals mineralsRef rows))

/-! Concrete records used to instantiate the theorems below. -/

/-- The spec scenario: a South African site with stored coordinates
`(22.94, -30.56)`, a latitude/longitude transposition. -/
def saSwapSite : SiteRecord :=
  { siteID := some "S1", siteName := some "Kimberley Mine", mineralID := 1, countryID := 2,
    mineralName := some "Diamond", countryName := some "South Africa",
    latitude := RawVal.num 22.94, longitude := RawVal.num (-30.56),
    production := some 100, note := none }

/-- The spec scenario: a Namibian site at `(5.0, 5.0)`, where transposing
does not strictly reduce the Manhattan distance to the centroid. -/
def namSite : SiteRecord :=
  { siteID := some "S2", siteName := some "Nam Site", mineralID := 1, countryID := 3,
    mineralName := none, countryName := some "Namibia",
    latitude := RawVal.num 5, longitude := RawVal.num 5,
    production := none, note := none }

/-- A South African site stored exactly at the country centroid. -/
def saCentroidSite : SiteRecord :=
  { siteID := some "S5", siteName := some "Centroid Site", mineralID := 0, countryID := 2,
    mineralName := none, countryName := some "South Africa",
    latitude := RawVal.num (-30.559482), longitude := RawVal.num 22.937506,
    production := none, note := none }

/-- A South African site whose first-pass swap result `(-30.559482,
52.937506)` is still more than 20 degrees of longitude from the centroid. -/
def reflagSite : SiteRecord :=
  { siteID := some "S3", siteName := some "Reflag Site", mineralID := 0, countryID := 2,
    mineralName := none, countryName := some "South Africa",
    latitude := RawVal.num 52.937506, longitude := RawVal.num (-30.559482),
    production := none, note := none }

/-- A South African site whose `Latitude` key is absent: `s.get('Latitude', 0)`
defaults it to `0`. -/
def missingLatSite : SiteRecord :=
  { siteID := some "S4", siteName := some "Missing Lat", mineralID := 0, countryID := 2,
    mineralName := none, countryName := some "South Africa",
    latitude := RawVal.missing, longitude := RawVal.num (-30.559482),
    production := none, note := none }

/-- A site whose latitude cell is non-numeric, so `float(...)` raises. -/
def badLatSite : SiteRecord :=
  { siteID := some "S6", siteName := some "Bad Lat", mineralID := 0, countryID := 2,
    mineralName := none, countryName := some "South Africa",
    latitude := RawVal.bad, longitude := RawVal.num 1,
    production := none, note := none }

/-- A site assigned to a country absent from the centroid table. -/
def ausSite : SiteRecord :=
  { siteID := some "S7", siteName := some "Perth Mine", mineralID := 0, countryID := 9,
    mineralName := none, countryName := some "Australia",
    latitude := RawVal.num (-31.95), longitude := RawVal.num 115.86,
    production := some 7, note := none }

/-- A small mineral reference table with distinct identifiers. -/
def wMinerals : List (ℤ × String) := [(1, "Diamond"), (2, "Gold")]

/-- A small country reference table with distinct identifiers. -/
def wCountries : List (ℤ × String) := [(2, "South Africa"), (3, "Namibia")]

/-- Two raw site rows (names unresolved) fed to the pipeline. -/
def wRows : List SiteRecord :=
  [{ siteID := some "R1", siteName := some "Row One", mineralID := 1, countryID := 2,
     mineralName := none, countryName := none,
     latitude := RawVal.num (-30.5), longitude := RawVal.num 22.9,
     production := some 3, note := none },
   { siteID := some "R2", siteName := some "Row Two", mineralID := 5, countryID := 7,
     mineralName := none, countryName := none,
     latitude := RawVal.num 1, longitude := RawVal.num 2,
     production := none, note := none }]

/-- The swap event the loop emits for `saSwapSite`. -/
def saSwapEvent : CorrectionEvent :=
  { siteID := saSwapSite.siteID, siteName := saSwapSite.siteName,
    countryName := saSwapSite.countryName,
    action := Action.swap_latlon, old := (22.94, -30.56), new := some (-30.56, 22.94),
    country_centroid := none }

/-! Branch characterizations of the loop body. -/

/-- On the swap branch (`src/app.py` lines 127-132) the loop body returns
the record with latitude and longitude exchanged and the swap note set,
together with exactly one `swap_latlon` event. -/
theorem correctSite_swap_eq (s : SiteRecord) (lat lon c_lat c_lon : ℚ)
    (hlat : parseCoord s.latitude = some lat) (hlon : parseCoord s.longitude = some lon)
    (hc : centroidFor s = some (c_lat, c_lon))
    (hwin : |lat - c_lat| > 10 ∨ |lon - c_lon| > 20)
    (hswap : |lon - c_lat| + |lat - c_lon| < |lat - c_lat| + |lon - c_lon|) :
    correctSite s =
      ({ s with latitude := RawVal.num lon, longitude := RawVal.num lat, note := some swapNote },
       [{ siteID := s.siteID, siteName := s.siteName, countryName := s.countryName,
          action := Action.swap_latlon, old := (lat, lon), new := some (lon, lat),
          country_centroid := none }]) := by
  unfold correctSite
  rw [hlat, hlon, hc]
  simp only
  rw [if_pos hwin, if_pos hswap]

/-- On the mismatch branch (`src/app.py` lines 133-137) the loop body keeps
the coordinates, sets the mismatch note, and emits one `mismatch` event
carrying the centroid. -/
theorem correctSite_mismatch_eq (s : SiteRecord) (lat lon c_lat c_lon : ℚ)
    (hlat : parseCoord s.latitude = some lat) (hlon : parseCoord s.longitude = some lon)
    (hc : centroidFor s = some (c_lat, c_lon))
    (hwin : |lat - c_lat| > 10 ∨ |lon - c_lon| > 20)
    (hswap : ¬ (|lon - c_lat| + |lat - c_lon| < |lat - c_lat| + |lon - c_lon|)) :
    correctSite s =
      ({ s with note := some mismatchNote },
       [{ siteID := s.siteID, siteName := s.siteName, countryName := s.countryName,
          action := Action.mismatch, old := (lat, lon), new := none,
          country_centroid := some (c_lat, c_lon) }]) := by
  unfold correctSite
  rw [hlat, hlon, hc]
  simp only
  rw [if_pos hwin, if_neg hswap]

/-- Inside the 10-degree/20-degree window (`src/app.py` line 119 false) the
loop body is the identity and emits nothing. -/
theorem correctSite_consistent_eq (s : SiteRecord) (lat lon c_lat c_lon : ℚ)
    (hlat : parseCoord s.latitude = some lat) (hlon : parseCoord s.longitude = some lon)
    (hc : centroidFor s = some (c_lat, c_lon))
    (hwin : ¬ (|lat - c_lat| > 10 ∨ |lon - c_lon| > 20)) :
    correctSite s = (s, []) := by
  unfold correctSite
  rw [hlat, hlon, hc]
  simp only
  rw [if_neg hwin]

/-- With no centroid entry for the record's country (`src/app.py` line 115
false) the loop body is the identity and emits nothing. -/
theorem correctSite_nocentroid_eq (s : SiteRecord) (hc : centroidFor s = none) :
    correctSite s = (s, []) := by
  unfold correctSite
  rcases h1 : parseCoord s.latitude with _ | lat <;>
    rcases h2 : parseCoord s.longitude with _ | lon <;> simp [hc]

/-- When either coordinate fails to parse (`src/app.py` lines 111-113) the
record is appended unchanged and skipped. -/
theorem correctSite_badparse_eq (s : SiteRecord)
    (h : parseCoord s.latitude = none ∨ parseCoord s.longitude = none) :
    correctSite s = (s, []) := by
  unfold correctSite
  rcases h with h | h
  · rw [h]
  · rw [h]
    rcases parseCoord s.latitude with _ | lat <;> rfl

/-- Exhaustive case analysis of the loop body: it is the identity, or it
swaps, or it flags a mismatch, with the corresponding guards. -/
theorem correctSite_total (s : SiteRecord) :
    correctSite s = (s, []) ∨
    (∃ lat lon c_lat c_lon,
      parseCoord s.latitude = some lat ∧ parseCoord s.longitude = some lon ∧
      centroidFor s = some (c_lat, c_lon) ∧
      (|lat - c_lat| > 10 ∨ |lon - c_lon| > 20) ∧
      ((|lon - c_lat| + |lat - c_lon| < |lat - c_lat| + |lon - c_lon| ∧
        correctSite s =
          ({ s with latitude := RawVal.num lon, longitude := RawVal.num lat,
                    note := some swapNote },
           [{ siteID := s.siteID, siteName := s.siteName, countryName := s.countryName,
              action := Action.swap_latlon, old := (lat, lon), new := some (lon, lat),
              country_centroid := none }])) ∨
       (¬ (|lon - c_lat| + |lat - c_lon| < |lat - c_lat| + |lon - c_lon|) ∧
        correctSite s =
          ({ s with note := some mismatchNote },
           [{ siteID := s.siteID, siteName := s.siteName, countryName := s.countryName,
              action := Action.mismatch, old := (lat, lon), new := none,
              country_centroid := some (c_lat, c_lon) }])))) := by
  rcases hlat : parseCoord s.latitude with _ | lat
  · exact Or.inl (correctSite_badparse_eq s (Or.inl hlat))
  rcases hlon : parseCoord s.longitude with _ | lon
  · exact Or.inl (correctSite_badparse_eq s (Or.inr hlon))
  rcases hc : centroidFor s with _ | ⟨c_lat, c_lon⟩
  · exact Or.inl (correctSite_nocentroid_eq s hc)
  by_cases hwin : |lat - c_lat| > 10 ∨ |lon - c_lon| > 20
  · by_cases hsw : |lon - c_lat| + |lat - c_lon| < |lat - c_lat| + |lon - c_lon|
    · exact Or.inr ⟨lat, lon, c_lat, c_lon, rfl, rfl, rfl, hwin,
        Or.inl ⟨hsw, correctSite_swap_eq s lat lon c_lat c_lon hlat hlon hc hwin hsw⟩⟩
    · exact Or.inr ⟨lat, lon, c_lat, c_lon, rfl, rfl, rfl, hwin,
        Or.inr ⟨hsw, correctSite_mismatch_eq s lat lon c_lat c_lon hlat hlon hc hwin hsw⟩⟩
  · exact Or.inl (correctSite_consistent_eq s lat lon c_lat c_lon hlat hlon hc hwin)

/-- The loop body touches only `Latitude`, `Longitude` and `Note`. -/
theorem correctSite_frame (s : SiteRecord) :
    (correctSite s).1.siteID = s.siteID ∧ (correctSite s).1.siteName = s.siteName ∧
    (correctSite s).1.mineralID = s.mineralID ∧ (correctSite s).1.countryID = s.countryID ∧
    (correctSite s).1.mineralName = s.mineralName ∧
    (correctSite s).1.countryName = s.countryName ∧
    (correctSite s).1.production = s.production := by
  rcases correctSite_total s with h | ⟨lat, lon, c_lat, c_lon, _, _, _, _, ⟨_, h⟩ | ⟨_, h⟩⟩ <;>
    rw [h] <;> exact ⟨rfl, rfl, rfl, rfl, rfl, rfl, rfl⟩

/-- The corrected record list is the input list mapped through the loop
body; the event log is the per-record event lists concatenated in input
order. -/
theorem correctionLoop_eq (sites : List SiteRecord) :
    correctionLoop sites =
      (sites.map (fun s => (correctSite s).1), sites.flatMap (fun s => (correctSite s).2)) := by
  induction sites with
  | nil => rfl
  | cons s rest ih => simp [correctionLoop, ih]

set_option maxRecDepth 10000

/-- C2: for a record with a known centroid, parsed coordinates outside the
10-degree/20-degree window, and a transposed pair strictly closer to the
centroid in Manhattan distance, the output latitude is the input longitude
and vice versa, and exactly one `swap_latlon` event is emitted whose old
pair is the input coordinates and whose new pair is the transposed pair. -/
theorem C2_swap_correctness (s : SiteRecord) (lat lon c_lat c_lon : ℚ)
    (hlat : parseCoord s.latitude = some lat) (hlon : parseCoord s.longitude = some lon)
    (hc : centroidFor s = some (c_lat, c_lon))
    (hwin : |lat - c_lat| > 10 ∨ |lon - c_lon| > 20)
    (hswap : |lon - c_lat| + |lat - c_lon| < |lat - c_lat| + |lon - c_lon|) :
    (correctSite s).1.latitude = RawVal.num lon ∧
    (correctSite s).1.longitude = RawVal.num lat ∧
    (correctSite s).2 =
      [{ siteID := s.siteID, siteName := s.siteName, countryName := s.countryName,
         action := Action.swap_latlon, old := (lat, lon), new := some (lon, lat),
         country_centroid := none }] := by
  rw [correctSite_swap_eq s lat lon c_lat c_lon hlat hlon hc hwin hswap]
  exact ⟨rfl, rfl, rfl⟩

/-- C2 witness: the South Africa scenario, concretely. -/
theorem C2_swap_correctness_witness :
    (correctSite saSwapSite).1.latitude = RawVal.num (-30.56) ∧
    (correctSite saSwapSite).1.longitude = RawVal.num 22.94 ∧
    (correctSite saSwapSite).2 =
      [{ siteID := saSwapSite.siteID, siteName := saSwapSite.siteName,
         countryName := saSwapSite.countryName,
         action := Action.swap_latlon, old := (22.94, -30.56), new := some (-30.56, 22.94),
         country_centroid := none }] :=
  C2_swap_correctness saSwapSite 22.94 (-30.56) (-30.559482) 22.937506
    rfl rfl rfl (by with_unfolding_all decide) (by with_unfolding_all decide)

/-- C3: for a record with a known centroid, parsed coordinates outside the
10-degree/20-degree window, and a transposed pair no closer to the centroid,
the coordinate fields are unchanged, the note requests manual review, and
exactly one `mismatch` event carrying the country's centroid is emitted. -/
theorem C3_mismatch_preservation (s : SiteRecord) (lat lon c_lat c_lon : ℚ)
    (hlat : parseCoord s.latitude = some lat) (hlon : parseCoord s.longitude = some lon)
    (hc : centroidFor s = some (c_lat, c_lon))
    (hwin : |lat - c_lat| > 10 ∨ |lon - c_lon| > 20)
    (hge : |lat - c_lat| + |lon - c_lon| ≤ |lon - c_lat| + |lat - c_lon|) :
    (correctSite s).1.latitude = s.latitude ∧
    (correctSite s).1.longitude = s.longitude ∧
    (correctSite s).1.note = some mismatchNote ∧
    (correctSite s).2 =
      [{ siteID := s.siteID, siteName := s.siteName, countryName := s.countryName,
         action := Action.mismatch, old := (lat, lon), new := none,
         country_centroid := some (c_lat, c_lon) }] := by
  rw [correctSite_mismatch_eq s lat lon c_lat c_lon hlat hlon hc hwin (not_lt.mpr hge)]
  exact ⟨rfl, rfl, rfl, rfl⟩

/-- C3 witness: the Namibia `(5.0, 5.0)` scenario, an exact tie. -/
theorem C3_mismatch_preservation_witness :
    (correctSite namSite).1.latitude = namSite.latitude ∧
    (correctSite namSite).1.longitude = namSite.longitude ∧
    (correctSite namSite).1.note = some mismatchNote ∧
    (correctSite namSite).2 =
      [{ siteID := namSite.siteID, siteName := namSite.siteName,
         countryName := namSite.countryName,
         action := Action.mismatch, old := (5, 5), new := none,
         country_centroid := some (-22.9576, 18.4904) }] :=
  C3_mismatch_preservation namSite 5 5 (-22.9576) 18.4904
    rfl rfl rfl (by with_unfolding_all decide) (by with_unfolding_all decide)

/-- C5: a record whose country has no centroid entry (including an absent
country name) is returned with every field unchanged and no event, for all
inputs. -/
theorem C5_unknown_country_noop (s : SiteRecord) (hc : centroidFor s = none) :
    correctSite s = (s, []) :=
  correctSite_nocentroid_eq s hc

/-- C5 witness: a site assigned to Australia, which is not in the table. -/
theorem C5_unknown_country_noop_witness : correctSite ausSite = (ausSite, []) :=
  C5_unknown_country_noop ausSite rfl

/-- C6: a record with a known centroid whose parsed coordinates satisfy
`|lat - c_lat| <= 10` and `|lon - c_lon| <= 20` is classified consistent:
every field is unchanged and no event is emitted. -/
theorem C6_consistent_window_noop (s : SiteRecord) (lat lon c_lat c_lon : ℚ)
    (hlat : parseCoord s.latitude = some lat) (hlon : parseCoord s.longitude = some lon)
    (hc : centroidFor s = some (c_lat, c_lon))
    (h1 : |lat - c_lat| ≤ 10) (h2 : |lon - c_lon| ≤ 20) :
    correctSite s = (s, []) :=
  correctSite_consistent_eq s lat lon c_lat c_lon hlat hlon hc
    (by rw [not_or]; exact ⟨not_lt.mpr h1, not_lt.mpr h2⟩)

/-- C6 witness: a South African site stored exactly at the centroid. -/
theorem C6_consistent_window_noop_witness : correctSite saCentroidSite = (saCentroidSite, []) :=
  C6_consistent_window_noop saCentroidSite (-30.559482) 22.937506 (-30.559482) 22.937506
    rfl rfl rfl (by with_unfolding_all decide) (by with_unfolding_all decide)

/-- C8: the correction pass modifies at most latitude, longitude and the
provenance note; identifier, name, mineral identifier/name, country
identifier/name and production are identical in the output. -/
theorem C8_applier_frame (s : SiteRecord) :
    (correctSite s).1.siteID = s.siteID ∧ (correctSite s).1.siteName = s.siteName ∧
    (correctSite s).1.mineralID = s.mineralID ∧ (correctSite s).1.countryID = s.countryID ∧
    (correctSite s).1.mineralName = s.mineralName ∧
    (correctSite s).1.countryName = s.countryName ∧
    (correctSite s).1.production = s.production :=
  correctSite_frame s

/-- C1 counterexample: `reflagSite` is swapped on the first pass (one
`swap_latlon` event), but the second pass over the output classifies it as
a mismatch and emits a new event, not `consistent` as claimed. -/
theorem C1_idempotence_counterexample :
    (correctSite reflagSite).2.map CorrectionEvent.action = [Action.swap_latlon] ∧
    (correctSite (correctSite reflagSite).1).2.map CorrectionEvent.action = [Action.mismatch] ∧
    (correctSite (correctSite reflagSite).1).2 ≠ [] := by
  have h1 := correctSite_swap_eq reflagSite 52.937506 (-30.559482) (-30.559482) 22.937506
    rfl rfl rfl (by with_unfolding_all decide) (by with_unfolding_all decide)
  have h2 := correctSite_mismatch_eq (correctSite reflagSite).1 (-30.559482) 52.937506
    (-30.559482) 22.937506 (by rw [h1]; rfl) (by rw [h1]; rfl)
    (by rw [h1]; rfl)
    (by with_unfolding_all decide) (by with_unfolding_all decide)
  refine ⟨by rw [h1]; rfl, by rw [h2]; rfl, by rw [h2]; simp⟩

/-- C1 (amended): a record swapped by the first pass is never re-swapped by
a second pass: its coordinate fields are left unchanged and every event the
second pass emits for it (possible when the swapped coordinates still lie
outside the 10-degree/20-degree window) has action `mismatch`, never
`swap_latlon`. -/
theorem C1_second_pass_no_reswap (s : SiteRecord) (lat lon c_lat c_lon : ℚ)
    (hlat : parseCoord s.latitude = some lat) (hlon : parseCoord s.longitude = some lon)
    (hc : centroidFor s = some (c_lat, c_lon))
    (hwin : |lat - c_lat| > 10 ∨ |lon - c_lon| > 20)
    (hswap : |lon - c_lat| + |lat - c_lon| < |lat - c_lat| + |lon - c_lon|) :
    (correctSite (correctSite s).1).1.latitude = (correctSite s).1.latitude ∧
    (correctSite (correctSite s).1).1.longitude = (correctSite s).1.longitude ∧
    ∀ e ∈ (correctSite (correctSite s).1).2, e.action = Action.mismatch := by
  have h1 := correctSite_swap_eq s lat lon c_lat c_lon hlat hlon hc hwin hswap
  have hlat2 : parseCoord (correctSite s).1.latitude = some lon := by rw [h1]; rfl
  have hlon2 : parseCoord (correctSite s).1.longitude = some lat := by rw [h1]; rfl
  have hc2 : centroidFor (correctSite s).1 = some (c_lat, c_lon) := by
    rw [h1]; unfold centroidFor at hc ⊢; exact hc
  by_cases hwin2 : |lon - c_lat| > 10 ∨ |lat - c_lon| > 20
  · have hns : ¬ (|lat - c_lat| + |lon - c_lon| < |lon - c_lat| + |lat - c_lon|) :=
      not_lt.mpr (le_of_lt hswap)
    have h2 := correctSite_mismatch_eq (correctSite s).1 lon lat c_lat c_lon
      hlat2 hlon2 hc2 hwin2 hns
    rw [h2]
    refine ⟨rfl, rfl, ?_⟩
    intro e he
    simp only [List.mem_singleton] at he
    rw [he]
  · have h2 := correctSite_consistent_eq (correctSite s).1 lon lat c_lat c_lon
      hlat2 hlon2 hc2 hwin2
    rw [h2]
    exact ⟨rfl, rfl, by intro e he; simp at he⟩

/-- C1 (amended) witness: the `reflagSite` scenario, concretely. -/
theorem C1_second_pass_no_reswap_witness :
    (correctSite (correctSite reflagSite).1).1.latitude = (correctSite reflagSite).1.latitude ∧
    (correctSite (correctSite reflagSite).1).1.longitude = (correctSite reflagSite).1.longitude ∧
    ∀ e ∈ (correctSite (correctSite reflagSite).1).2, e.action = Action.mismatch :=
  C1_second_pass_no_reswap reflagSite 52.937506 (-30.559482) (-30.559482) 22.937506
    rfl rfl rfl (by with_unfolding_all decide) (by with_unfolding_all decide)

/-- C4 counterexample: a record whose `Latitude` key is absent is NOT
skipped: the default `0` is validated against the South Africa centroid,
the record is swapped, and an event is emitted. -/
theorem C4_missing_passthrough_counterexample :
    missingLatSite.latitude = RawVal.missing ∧
    (correctSite missingLatSite).2 ≠ [] ∧
    (correctSite missingLatSite).1 ≠ missingLatSite := by
  have h1 := correctSite_swap_eq missingLatSite 0 (-30.559482) (-30.559482) 22.937506
    rfl rfl rfl (by with_unfolding_all decide) (by with_unfolding_all decide)
  refine ⟨rfl, by rw [h1]; simp, ?_⟩
  rw [h1]
  intro h
  have h2 := congrArg SiteRecord.note h
  simp [missingLatSite] at h2

/-- C4 (amended): a record on which `float` raises (a non-numeric
coordinate cell) is passed through unchanged, excluded from validation, and
emits no event; this is never a fatal error.  (A MISSING cell, by contrast,
is defaulted to `0` and validated like any numeric value.) -/
theorem C4_nonnumeric_passthrough (s : SiteRecord)
    (h : parseCoord s.latitude = none ∨ parseCoord s.longitude = none) :
    correctSite s = (s, []) :=
  correctSite_badparse_eq s h

/-- C4 (amended) witness: a record with a non-numeric latitude cell. -/
theorem C4_nonnumeric_passthrough_witness : correctSite badLatSite = (badLatSite, []) :=
  C4_nonnumeric_passthrough badLatSite (Or.inl rfl)

/-- C9 counterexample: a consistent (untouched) record carries NO
provenance note on output (`Note` is never set for it), not an empty one. -/
theorem C9_note_counterexample :
    correctSite saCentroidSite = (saCentroidSite, []) ∧
    (correctSite saCentroidSite).1.note = none := by
  have h := correctSite_consistent_eq saCentroidSite (-30.559482) 22.937506
    (-30.559482) 22.937506 rfl rfl rfl (by with_unfolding_all decide)
  exact ⟨h, by rw [h]; rfl⟩

/-- C9 (amended): a record the pass leaves untouched (no event) is returned
exactly as it came in, note field included — the pass attaches no note to
it; a record the pass touches (an event is emitted) carries a non-empty
provenance note. -/
theorem C9_note_amended (s : SiteRecord) :
    ((correctSite s).2 = [] → (correctSite s).1 = s) ∧
    ((correctSite s).2 ≠ [] → ∃ t, (correctSite s).1.note = some t ∧ t ≠ "") := by
  rcases correctSite_total s with h | ⟨lat, lon, c_lat, c_lon, _, _, _, _, ⟨_, h⟩ | ⟨_, h⟩⟩ <;>
    rw [h]
  · exact ⟨fun _ => rfl, fun hne => absurd rfl hne⟩
  · exact ⟨fun hc => absurd hc (by simp), fun _ => ⟨swapNote, rfl, by decide⟩⟩
  · exact ⟨fun hc => absurd hc (by simp), fun _ => ⟨mismatchNote, rfl, by decide⟩⟩

/-- C9 (amended) witness: the touched Namibia record carries a non-empty
note. -/
theorem C9_note_amended_witness :
    ∃ t, (correctSite namSite).1.note = some t ∧ t ≠ "" :=
  (C9_note_amended namSite).2 (by
    rw [correctSite_mismatch_eq namSite 5 5 (-22.9576) 18.4904 rfl rfl rfl
      (by with_unfolding_all decide) (by with_unfolding_all decide)]
    simp)

/-- C10: the event log is the per-record event lists concatenated in input
processing order, and every event's `old` pair is the record's coordinates
as parsed BEFORE any mutation (the append happens before the overwrite),
with a swap event's `new` pair being the transposition of `old`. -/
theorem C10_audit_invariant (sites : List SiteRecord) :
    (correctionLoop sites).2 = sites.flatMap (fun s => (correctSite s).2) ∧
    ∀ s ∈ sites, ∀ e ∈ (correctSite s).2, ∀ lat lon,
      parseCoord s.latitude = some lat → parseCoord s.longitude = some lon →
      e.old = (lat, lon) ∧ (e.action = Action.swap_latlon → e.new = some (lon, lat)) := by
  constructor
  · exact congrArg Prod.snd (correctionLoop_eq sites)
  · intro s _ e he lat lon hlat hlon
    rcases correctSite_total s with h | ⟨lat0, lon0, c_lat, c_lon, hlat0, hlon0, _, _,
      ⟨_, h⟩ | ⟨_, h⟩⟩
    · rw [h] at he; simp at he
    · have e1 : lat0 = lat := Option.some.inj (hlat0.symm.trans hlat)
      have e2 : lon0 = lon := Option.some.inj (hlon0.symm.trans hlon)
      subst e1; subst e2
      rw [h] at he
      simp only [List.mem_singleton] at he
      subst he
      exact ⟨rfl, fun _ => rfl⟩
    · have e1 : lat0 = lat := Option.some.inj (hlat0.symm.trans hlat)
      have e2 : lon0 = lon := Option.some.inj (hlon0.symm.trans hlon)
      subst e1; subst e2
      rw [h] at he
      simp only [List.mem_singleton] at he
      subst he
      exact ⟨rfl, by intro hact; cases hact⟩

/-- With pairwise-distinct keys a reference matches each identifier at
most once. -/
theorem refMatches_len_le_one (ref : List (ℤ × String))
    (hnd : (ref.map Prod.fst).Nodup) (id : ℤ) :
    (refMatches ref id).length ≤ 1 := by
  induction ref with
  | nil => simp [refMatches]
  | cons p rest ih =>
    rw [List.map_cons, List.nodup_cons] at hnd
    unfold refMatches at ih ⊢
    rw [List.filter_cons]
    by_cases hpe : p.1 = id
    · rw [if_pos (by simp [hpe])]
      rw [List.filter_eq_nil_iff.mpr, List.map_cons, List.map_nil]
      · exact le_refl 1
      · intro q hq
        simp only [decide_eq_true_eq]
        intro hqe
        exact hnd.1 ((hpe.trans hqe.symm) ▸ List.mem_map_of_mem Prod.fst hq)
    · rw [if_neg (by simp [hpe])]
      exact ih hnd.2

/-- The head of the match list is populated exactly when the identifier
occurs among the reference keys (the merge's left-join behaviour). -/
theorem refMatches_head_isSome (ref : List (ℤ × String)) (id : ℤ) :
    (refMatches ref id).head?.isSome = true ↔ id ∈ ref.map Prod.fst := by
  rw [List.head?_isSome, ne_eq]
  unfold refMatches
  rw [List.map_eq_nil_iff, List.filter_eq_nil_iff]
  push_neg
  simp [List.mem_map]

/-- With distinct mineral identifiers the mineral merge is one-to-one: it
annotates each row with the at-most-one matching name. -/
theorem mergeMinerals_nodup_eq (ref : List (ℤ × String))
    (hnd : (ref.map Prod.fst).Nodup) (rows : List SiteRecord) :
    mergeMinerals ref rows =
      rows.map (fun r => { r with mineralName := (refMatches ref r.mineralID).head? }) := by
  induction rows with
  | nil => rfl
  | cons r rest ih =>
    unfold mergeMinerals at ih ⊢
    rw [List.flatMap_cons, ih, List.map_cons]
    rcases hm : refMatches ref r.mineralID with _ | ⟨m, ms⟩
    · simp [hm]
    · have hlen := refMatches_len_le_one ref hnd r.mineralID
      rw [hm] at hlen
      simp only [List.length_cons] at hlen
      have hms : ms = [] := List.eq_nil_of_length_eq_zero (by omega)
      subst hms
      simp [hm]

/-- With distinct country identifiers the country merge is one-to-one. -/
theorem mergeCountries_nodup_eq (ref : List (ℤ × String))
    (hnd : (ref.map Prod.fst).Nodup) (rows : List SiteRecord) :
    mergeCountries ref rows =
      rows.map (fun r => { r with countryName := (refMatches ref r.countryID).head? }) := by
  induction rows with
  | nil => rfl
  | cons r rest ih =>
    unfold mergeCountries at ih ⊢
    rw [List.flatMap_cons, ih, List.map_cons]
    rcases hm : refMatches ref r.countryID with _ | ⟨m, ms⟩
    · simp [hm]
    · have hlen := refMatches_len_le_one ref hnd r.countryID
      rw [hm] at hlen
      simp only [List.length_cons] at hlen
      have hms : ms = [] := List.eq_nil_of_length_eq_zero (by omega)
      subst hms
      simp [hm]

/-- C7: with reference tables keyed by identifier (distinct keys), the join
plus correction pass yields exactly one output record per input row, in
input order, with no row dropped, duplicated or reordered, and with the
mineral/country name populated exactly when the identifier exists in the
corresponding reference table. -/
theorem C7_cardinality_order (mins cnts : List (ℤ × String)) (rows : List SiteRecord)
    (hm : (mins.map Prod.fst).Nodup) (hc : (cnts.map Prod.fst).Nodup) :
    (pipeline mins cnts rows).1.length = rows.length ∧
    ∀ (i : ℕ) (h1 : i < (pipeline mins cnts rows).1.length) (h2 : i < rows.length),
      (pipeline mins cnts rows).1[i].siteID = rows[i].siteID ∧
      ((pipeline mins cnts rows).1[i].mineralName.isSome = true ↔
        rows[i].mineralID ∈ mins.map Prod.fst) ∧
      ((pipeline mins cnts rows).1[i].countryName.isSome = true ↔
        rows[i].countryID ∈ cnts.map Prod.fst) := by
  have hpipe : (pipeline mins cnts rows).1 =
      rows.map (fun r =>
        (correctSite
          { { r with mineralName := (refMatches mins r.mineralID).head? } with
              countryName := (refMatches cnts r.countryID).head? }).1) := by
    unfold pipeline
    rw [mergeMinerals_nodup_eq mins hm rows, mergeCountries_nodup_eq cnts hc, correctionLoop_eq,
      List.map_map, List.map_map]
    rfl
  refine ⟨by rw [hpipe, List.length_map], ?_⟩
  intro i h1 h2
  have hgv : (pipeline mins cnts rows).1[i] =
      (correctSite
        { { rows[i] with mineralName := (refMatches mins rows[i].mineralID).head? } with
            countryName := (refMatches cnts rows[i].countryID).head? }).1 := by
    rw [List.getElem_of_eq hpipe h1, List.getElem_map]
  have hfr := correctSite_frame
    { { rows[i] with mineralName := (refMatches mins rows[i].mineralID).head? } with
        countryName := (refMatches cnts rows[i].countryID).head? }
  refine ⟨?_, ?_, ?_⟩
  · rw [hgv, hfr.1]
  · rw [hgv, hfr.2.2.2.2.1]
    exact refMatches_head_isSome mins rows[i].mineralID
  · rw [hgv, hfr.2.2.2.2.2.1]
    exact refMatches_head_isSome cnts rows[i].countryID

/-- C7 witness: a two-row input with one resolvable and one unresolvable
identifier pair. -/
theorem C7_cardinality_order_witness :
    (pipeline wMinerals wCountries wRows).1.length = wRows.length ∧
    ∀ (i : ℕ) (h1 : i < (pipeline wMinerals wCountries wRows).1.length)
      (h2 : i < wRows.length),
      (pipeline wMinerals wCountries wRows).1[i].siteID = wRows[i].siteID ∧
      ((pipeline wMinerals wCountries wRows).1[i].mineralName.isSome = true ↔
        wRows[i].mineralID ∈ wMinerals.map Prod.fst) ∧
      ((pipeline wMinerals wCountries wRows).1[i].countryName.isSome = true ↔
        wRows[i].countryID ∈ wCountries.map Prod.fst) :=
  C7_cardinality_order wMinerals wCountries wRows (by decide) (by decide)

/-- C10 witness: the South Africa swap scenario, concretely. -/
theorem C10_audit_invariant_witness :
    (correctionLoop [saSwapSite]).2 = [saSwapSite].flatMap (fun s => (correctSite s).2) ∧
    (saSwapEvent.old = (22.94, -30.56) ∧
     (saSwapEvent.action = Action.swap_latlon → saSwapEvent.new = some (-30.56, 22.94))) :=
  ⟨(C10_audit_invariant [saSwapSite]).1,
   (C10_audit_invariant [saSwapSite]).2 saSwapSite (by simp) saSwapEvent (by
      rw [correctSite_swap_eq saSwapSite 22.94 (-30.56) (-30.559482) 22.937506 rfl rfl rfl
        (by with_unfolding_all decide) (by with_unfolding_all decide)]
      exact List.mem_singleton.mpr rfl) 22.94 (-30.56) rfl rfl⟩

end MinnApp
